import Mathlib

/-!
Shallow embedding of `src/http.js` from kerphi/translation-server-v2.

The file bundles two JavaScript modules: the `Zotero.HTTP` outbound client
(`request`, `processDocuments`, plus the deprecated `doGet`/`doPost`
wrappers) and the `WebEndpoint` module (the `handle` entry point, the
`sessionsWaitingForSelection` store and the `gc` sweep).  The definitions
below translate those functions; the theorems at the end of the file check
the specification's claims against them.
-/

set_option autoImplicit false

namespace ZoteroHTTP

/-- Error handed to the `request` library's callback by the transport layer
(DNS/connect/TLS failure, or the library's own timeout error such as
`ETIMEDOUT`).  The code at lines 117-120 forwards it to `reject` unchanged,
so only its identity matters here; we keep the library's error code string. -/
structure TransportError where
  code : String
deriving DecidableEq, Repr

/-- A JavaScript runtime error raised while the callback body executes.  The
only one reachable in this module is the `ReferenceError` raised by reading
the undeclared identifier `status` at line 124 (`options.successCodes
.includes(status)`): no binding named `status` exists in the callback, the
enclosing function, the module scope (`config`, `request`, `jsdom`, `JSDOM`,
`wgxpath`) or among Node's globals, so evaluating the argument throws. -/
inductive JsError
  | referenceError (name : String)
deriving DecidableEq, Repr

/-- The `successCodes` option of `Zotero.HTTP.request`: `null` (the default
filled in at line 77), the explicit `false` (line 127 allows every status),
or an array of status codes.  An array — even an empty one — is truthy in
JavaScript, so it always takes the first branch at line 123. -/
inductive SuccessCodesOpt
  | nullDefault
  | falseAllow
  | codes (cs : List Nat)
deriving DecidableEq, Repr

/-- Lines 122-133: compute the `success` flag for a completed response.
With a (truthy) array the code evaluates `options.successCodes.includes(status)`
where `status` is undeclared, which raises a `ReferenceError` before
`includes` runs; with `successCodes === false` every code succeeds; with the
default `null` the 2xx range succeeds. -/
def classifySuccess (sc : SuccessCodesOpt) (statusCode : Nat) : Except JsError Bool :=
  match sc with
  | .codes _ => .error (.referenceError "status")
  | .falseAllow => .ok true
  | .nullDefault => .ok (decide (200 ≤ statusCode ∧ statusCode < 300))

/-- What the transport hands to the callback at line 117: either an error
(first argument non-null) or a completed response; the `request` library
passes the response body both as the `body` parameter and as `response.body`,
so we keep a single string. -/
inductive CallbackOutcome
  | transportErr (e : TransportError)
  | completed (statusCode : Nat) (body : String)
deriving DecidableEq, Repr

/-- Values the promise returned by `request` can reject with, as built inside
the callback: the transport error forwarded verbatim (line 119), the
`Zotero.HTTP.StatusError` built at line 135, a JavaScript runtime error
escaping the callback body, or a `Zotero.HTTP.TimeoutError` (lines 44-47).
The last constructor is included so that theorems can state whether the
callback ever produces it. -/
inductive Rejection
  | transport (e : TransportError)
  | statusError (url : String) (status : Nat) (body : String)
  | jsError (e : JsError)
  | timeoutError (ms : Nat)
deriving DecidableEq, Repr

/-- Message carried by `Zotero.HTTP.TimeoutError` (lines 44-47). -/
def timeoutErrorMessage (ms : Nat) : String :=
  "HTTP request has timed out after " ++ toString ms ++ "ms"

/-- The response object resolved at lines 141-145 (`headers` omitted: no
claim mentions them). -/
structure SuccessResponse where
  responseText : String
  statusCode : Nat
deriving DecidableEq, Repr

/-- Lines 117-146: the callback given to the `request` library, determining
how the promise returned by `Zotero.HTTP.request` settles. -/
def requestCallback (url : String) (sc : SuccessCodesOpt) (out : CallbackOutcome) :
    Except Rejection SuccessResponse :=
  match out with
  | .transportErr e => .error (.transport e)
  | .completed code body =>
    match classifySuccess sc code with
    | .error je => .error (.jsError je)
    | .ok true => .ok ⟨body, code⟩
    | .ok false => .error (.statusError url code body)

/-- Recognizer for a rejection with the `TimeoutError` kind. -/
def isTimeoutRejection : Except Rejection SuccessResponse → Bool
  | .error (.timeoutError _) => true
  | _ => false

/-- Whether an `Except` result is a success. -/
def isOkB {ε α : Type} : Except ε α → Bool
  | .ok _ => true
  | .error _ => false

/-- The request body option: `null` is `Option.none`; a string body is sent
verbatim (line 90); a non-string body is replaced by its `JSON.stringify`
image, recorded here as the `json` field. -/
inductive JsBody
  | jstr (s : String)
  | jobj (json : String)
deriving DecidableEq, Repr

/-- JavaScript truthiness of a body value at line 89 (`else if (options.body)`):
the empty string is falsy, any other string and any object is truthy. -/
def bodyTruthy : JsBody → Bool
  | .jstr s => decide (s ≠ "")
  | .jobj _ => true

/-- Line 90: `typeof options.body == 'string' ? options.body : JSON.stringify(options.body)`. -/
def serializeBody : JsBody → String
  | .jstr s => s
  | .jobj j => j

/-- Template-literal rendering of the body used in the error message at
line 87 (a string interpolates as itself, an object as `[object Object]`). -/
def jsTemplateString : JsBody → String
  | .jstr s => s
  | .jobj _ => "[object Object]"

/-- Characters of the string `` `: ${options.body.substr(0, options.logBodyLength)}` ``
with `options.body.length` appended, i.e. the left operand of the `>`
comparison at lines 101-102 after the `+` has been evaluated.  JavaScript
precedence parses `a + b > c ? x : y` as `((a + b) > c) ? x : y`, so the
template string is first concatenated with the numeric length (coercing the
number to its decimal digits). -/
def jsLogBodyChars (body : String) (cap : Nat) : List Char :=
  ':' :: ' ' :: ((body.data.take cap) ++ (toString body.length).data)

/-- Numeric value of a digit string. -/
def digitsVal (l : List Char) : Nat :=
  l.foldl (fun a c => 10 * a + (c.toNat - '0'.toNat)) 0

/-- Model of JavaScript `ToNumber` on the strings this module compares
(`none` stands for `NaN`).  The strings arising here carry no surrounding
whitespace, sign, fraction or exponent, so those cases of `ToNumber` are
not needed: the empty string converts to `0`, a pure digit string to its
value, and anything else — in particular every string starting with `':'` —
to `NaN`. -/
def jsParseNumberChars : List Char → Option Nat
  | [] => some 0
  | c :: cs =>
    if (c :: cs).all (fun d => d.isDigit) then some (digitsVal (c :: cs)) else none

/-- JavaScript `string > number`: the string is coerced with `ToNumber`;
any comparison against `NaN` is `false`. -/
def jsStrGtNum (l : List Char) (n : Nat) : Bool :=
  match jsParseNumberChars l with
  | none => false
  | some v => decide (n < v)

/-- Lines 101-102 exactly as they parse:
`logBody = ((`: ${body.substr(0, cap)}` + body.length) > cap) ? '...' : ''`.
The left operand starts with `':'`, so `ToNumber` yields `NaN`, the
comparison is `false`, and the whole expression is `''`. -/
def jsLogBody (body : String) (cap : Nat) : String :=
  if jsStrGtNum (jsLogBodyChars body cap) cap then "..." else ""

/-- Replace the first occurrence of `marker` followed by a nonempty run of
characters other than `stop` — the shape of the regexes
`/password":"[^"]+/` and `/password=[^&]+/` — with `repl`, keeping the rest
of the string (JavaScript `String.replace` with a non-global regex). -/
def replaceFirstRun (marker : List Char) (stop : Char) (repl : List Char) :
    List Char → List Char
  | [] => []
  | c :: cs =>
    if marker.isPrefixOf (c :: cs)
        && (match (c :: cs).drop marker.length with
            | [] => false
            | d :: _ => d != stop) then
      repl ++ (((c :: cs).drop marker.length).dropWhile (fun d => d != stop))
    else
      c :: replaceFirstRun marker stop repl cs

/-- Line 105: `logBody.replace(/password":"[^"]+/, 'password":"********')`. -/
def redactPasswordJson (s : String) : String :=
  String.mk (replaceFirstRun "password\":\"".data '"' "password\":\"********".data s.data)

/-- Line 106: `logBody.replace(/password=[^&]+/, 'password=********')`. -/
def redactPasswordForm (s : String) : String :=
  String.mk (replaceFirstRun "password=".data '&' "password=********".data s.data)

/-- Lines 84-108 of `Zotero.HTTP.request`: everything that happens before the
promise (and hence before any network I/O).  Returns the thrown `Error`
message for a GET/HEAD request with a non-null body (lines 85-88), and
otherwise the line passed to `Zotero.debug` at line 108 together with the
body that will be handed to the transport.  The `debug` option plays no
role here: it only guards the response log at lines 138-140. -/
def requestPre (method url : String) (body : Option JsBody) (logBodyLength : Nat) :
    Except String (String × Option String) :=
  if method = "GET" ∨ method = "HEAD" then
    match body with
    | some b =>
      .error ("HTTP " ++ method ++ " cannot have a request body (" ++ jsTemplateString b ++ ")")
    | none => .ok ("HTTP " ++ method ++ " " ++ url, none)
  else
    match body with
    | some b =>
      if bodyTruthy b then
        let bstr := serializeBody b
        let logBody := redactPasswordForm (redactPasswordJson (jsLogBody bstr logBodyLength))
        .ok ("HTTP " ++ method ++ " " ++ url ++ logBody, some bstr)
      else
        .ok ("HTTP " ++ method ++ " " ++ url, some (serializeBody b))
    | none => .ok ("HTTP " ++ method ++ " " ++ url, none)

/-- Whether the transport call inside the promise is reached: `request` only
gets there when the pre-send phase did not throw. -/
def requestIssuesNetwork (method url : String) (body : Option JsBody)
    (logBodyLength : Nat) : Bool :=
  isOkB (requestPre method url body logBodyLength)

/-- Substring test on character lists. -/
def listInfixOf (pat : List Char) : List Char → Bool
  | [] => pat.isEmpty
  | c :: cs => pat.isPrefixOf (c :: cs) || listInfixOf pat cs

/-- Whether the string `s` contains `pat` as a contiguous substring. -/
def strContains (s pat : String) : Bool := listInfixOf pat.data s.data

/-- Lines 160-206, `Zotero.HTTP.processDocuments` with the issued requests
made explicit: each URL is fetched with a GET request, the response parsed
and handed to `processor`; the loop at lines 186-198 runs strictly serially
and rethrows the first failure.  `fetch` models the request plus DOM
construction for one URL, `proc` the caller's processor.  The first
component of the result is the list of URLs for which a request was issued,
in order; the second is the settled value of the returned promise. -/
def processDocumentsTrace {E D A : Type} (fetch : String → Except E D)
    (proc : D → String → Except E A) : List String → List String × Except E (List A)
  | [] => ([], Except.ok [])
  | u :: rest =>
    match fetch u with
    | .error e => ([u], .error e)
    | .ok d =>
      match proc d u with
      | .error e => ([u], .error e)
      | .ok a =>
        let r := processDocumentsTrace fetch proc rest
        (u :: r.1, r.2.map (fun as => a :: as))

/-- The `urls` argument of `processDocuments`: a single string or an array. -/
inductive UrlsArg
  | single (u : String)
  | list (us : List String)
deriving DecidableEq, Repr

/-- Line 168: `if (typeof urls == "string") urls = [urls]`. -/
def normalizeUrls : UrlsArg → List String
  | .single u => [u]
  | .list us => us

/-- `processDocuments` on either form of the `urls` argument. -/
def processDocuments {E D A : Type} (fetch : String → Except E D)
    (proc : D → String → Except E A) (arg : UrlsArg) :
    List String × Except E (List A) :=
  processDocumentsTrace fetch proc (normalizeUrls arg)

end ZoteroHTTP

namespace WebEndpoint

/-- The parsed `ctx.request.body` of an inbound call: a plain-text body is a
string, a JSON body an object whose `session` field may be present or
absent (fields other than `session` are opaque to this module).  A missing
or empty body is represented by `Option.none` / `strData ""` at the use
site, matching the falsiness test `if (!data)` at line 296. -/
inductive ReqData
  | strData (s : String)
  | objData (sessionField : Option String)
deriving DecidableEq, Repr

/-- A `WebSession` as this module sees it: the correlation `id`, the
`started` timestamp in milliseconds used by `gc`, and the last inbound
`data` (reassigned on resume at line 315).  The `ctx`/`next` request
binding carried by the real object is opaque to every claim and omitted. -/
structure Session where
  id : String
  started : Nat
  data : ReqData
deriving DecidableEq, Repr

/-- The `sessionsWaitingForSelection` object: an association list from
session id to session.  The third component is a history annotation
recording the value of `ctx.response.status` at the moment the entry was
written (the only write, lines 328-330, happens exactly when that status
is 300); it lets theorems speak about how a stored session's handling
ended.  Keys are unique because every write first removes the key. -/
abbrev Store := List (String × Session × Nat)

/-- Own-entry lookup in the store: the own-property part of the bracket
read at line 308.  The full JavaScript read also consults the prototype
chain; `storeRead` below adds that. -/
def storeLookup : Store → String → Option Session
  | [], _ => none
  | e :: rest, sid => if e.1 = sid then some e.2.1 else storeLookup rest sid

/-- Deletion `delete sessionsWaitingForSelection[sid]` (line 312): removes
the own entry if present; deleting an inherited or absent name is a no-op
on the object's own entries. -/
def storeErase : Store → String → Store
  | [], _ => []
  | e :: rest, sid => if e.1 = sid then storeErase rest sid else e :: storeErase rest sid

/-- Assignment `sessionsWaitingForSelection[sid] = session` (line 329),
annotated with the response status current at the write.  Modelled as an
own-property write, which is faithful for every id actually written there:
`session.id` is generated by `WebSession`, never a client-chosen name (a
client cannot make line 329 run under a key of its choosing, and only
`"__proto__"` would behave differently as a write target). -/
def storeInsert (store : Store) (sid : String) (sess : Session) (status : Nat) : Store :=
  (sid, sess, status) :: storeErase store sid

/-- Property names a plain `{}` object inherits from `Object.prototype`, as
seen by a bracket read in Node: each yields a truthy value (a function, or
for `__proto__` the `Object.prototype` object itself). -/
def protoKeys : List String :=
  ["constructor", "hasOwnProperty", "isPrototypeOf", "propertyIsEnumerable",
   "toLocaleString", "toString", "valueOf", "__proto__",
   "__defineGetter__", "__defineSetter__", "__lookupGetter__", "__lookupSetter__"]

/-- What a JavaScript bracket read on the store can produce: a stored
session (own entry), a truthy member inherited from `Object.prototype`, or
`undefined`. -/
inductive JsPropRead
  | ownSession (sess : Session)
  | inherited
  | undefinedVal
deriving DecidableEq, Repr

/-- The bracket read `sessionsWaitingForSelection[sid]` at line 308 with
JavaScript property-lookup semantics: an own entry shadows the prototype;
otherwise a name of an `Object.prototype` member yields that (truthy)
inherited value, and anything else yields `undefined`. -/
def storeRead (store : Store) (sid : String) : JsPropRead :=
  match storeLookup store sid with
  | some sess => .ownSession sess
  | none => if sid ∈ protoKeys then .inherited else .undefinedVal

/-- How one call to `WebEndpoint.handle` ends: an early `ctx.throw`/`ctx.assert`
failure with its status code and message, a completed workflow whose final
response status is `status`, an error thrown by `session.handleURL()` and
propagated, or the `TypeError` raised at line 325 when the `session` value
is a member inherited from `Object.prototype` (it has no `handleURL`
method); the uncaught TypeError surfaces as a 500 server error, after the
line 313-315 assignments have added `ctx`/`next`/`data` properties to that
shared prototype member. -/
inductive HandleResult
  | clientError (code : Nat) (msg : String)
  | responded (status : Nat)
  | workflowError
  | typeError
deriving DecidableEq, Repr

/-- Truthiness of `data.session` at line 305: an absent field and the empty
string are both falsy. -/
def sessionFieldValue : Option String → Option String
  | none => none
  | some s => if s = "" then none else some s

/-- The test `data.match(/^https?:/)` at line 321: the string starts with
`http:` or `https:` (stated on the character list so that it computes by
structural recursion). -/
def urlPrefixOk (s : String) : Bool :=
  "http:".data.isPrefixOf s.data || "https:".data.isPrefixOf s.data

/-- Lines 325-330: run `session.handleURL()` and store the session exactly
when the response status is 300.  `outcome` is the status produced by the
workflow (an external collaborator), `none` if it threw; a thrown workflow
error propagates before the line-328 check, so nothing is stored then. -/
def finishHandle (store : Store) (sess : Session) (outcome : Option Nat) :
    HandleResult × Store :=
  match outcome with
  | none => (.workflowError, store)
  | some st =>
    if st = 300 then (.responded st, storeInsert store sess.id sess st)
    else (.responded st, store)

/-- Lines 287-331, `WebEndpoint.handle`, as a function of the store.
`contentTypeOk` is the `ctx.is('text/plain') || ctx.is('json')` test of the
line-288 assertion (which throws 415 with no message); `data` is the parsed
body (`none` for an absent body); `fresh` is the session built by
`new WebSession(ctx, next, data)` at line 318 for a non-object body (its id
freshly generated, `started` the creation time — that constructor lives in
`webSession.js`, outside this module); `outcome` is the status
`session.handleURL()` leaves in `ctx.response.status`, or `none` if it
threw.  For a string body the fresh session is constructed before the URL
prefix test at line 321, but that construction does not touch the store, so
folding the test ahead of it is observationally identical.  For a JSON body
the `session` id is looked up with `storeRead` (prototype-chain semantics):
an inherited `Object.prototype` member passes the line-309 truthiness guard
and ends in the line-325 TypeError with the store's own entries untouched.
The result is the way the call ended together with the store after the
call. -/
def handle (store : Store) (contentTypeOk : Bool) (data : Option ReqData)
    (fresh : Session) (outcome : Option Nat) : HandleResult × Store :=
  if contentTypeOk = false then (.clientError 415 "", store)
  else
    match data with
    | none => (.clientError 400 "POST data not provided\n", store)
    | some (.strData s) =>
      if s = "" then (.clientError 400 "POST data not provided\n", store)
      else if urlPrefixOk s = false then (.clientError 400 "URL not provided", store)
      else finishHandle store fresh outcome
    | some (.objData sf) =>
      match sessionFieldValue sf with
      | none => (.clientError 400 "'session' not provided", store)
      | some sid =>
        match storeRead store sid with
        | .undefinedVal => (.clientError 400 "Session not found", store)
        | .inherited => (.typeError, store)
        | .ownSession sess =>
          finishHandle (storeErase store sid) { sess with data := ReqData.objData sf } outcome

/-- Line 280: `const SELECT_TIMEOUT = 15` (seconds). -/
def SELECT_TIMEOUT : Nat := 15

/-- The eviction test at line 341: `session.started && Date.now() >=
session.started + SELECT_TIMEOUT * 1000`.  A zero `started` is falsy, so
such a session is never evicted. -/
def expired (now : Nat) (e : String × Session × Nat) : Bool :=
  decide (e.2.1.started ≠ 0) && decide (e.2.1.started + SELECT_TIMEOUT * 1000 ≤ now)

/-- Lines 337-347, the `gc` sweep, as a function of the counter
`requestsSinceGC`, the current time and the store: the counter is
pre-incremented; when it reaches 3 every expired entry is removed and the
counter resets to 0; otherwise nothing else happens. -/
def gc (requestsSinceGC now : Nat) (store : Store) : Nat × Store :=
  if requestsSinceGC + 1 = 3 then
    (0, store.filter (fun e => !(expired now e)))
  else (requestsSinceGC + 1, store)

/-- Every entry of the store was written while the response status was 300
(the annotation recorded at insertion). -/
def StoreInv (store : Store) : Prop := ∀ e ∈ store, e.2.2 = 300

instance (store : Store) : Decidable (StoreInv store) := by
  unfold StoreInv
  infer_instance

end WebEndpoint


open ZoteroHTTP WebEndpoint

/-- Auxiliary: JavaScript `ToNumber` yields `NaN` on any string starting
with a colon, hence the comparison at lines 101-102 is against `NaN`. -/
theorem jsParseNumberChars_colon (rest : List Char) :
    jsParseNumberChars (':' :: rest) = none := by
  have hd : (':'.isDigit) = false := by decide
  simp [jsParseNumberChars, List.all_cons, hd]

/-- Auxiliary: the operator-precedence slip at lines 101-102 makes `logBody`
the empty string for every body and every cap. -/
theorem jsLogBody_eq_empty (body : String) (cap : Nat) : jsLogBody body cap = "" := by
  simp [jsLogBody, jsStrGtNum, jsLogBodyChars, jsParseNumberChars_colon]

/-- Auxiliary: the line-105 redaction is the identity on the empty string. -/
theorem redactPasswordJson_empty : redactPasswordJson "" = "" := rfl

/-- Auxiliary: the line-106 redaction is the identity on the empty string. -/
theorem redactPasswordForm_empty : redactPasswordForm "" = "" := rfl

/-- Auxiliary: erasing a key makes it unfindable (`takeByCorrelationId`
atomicity: a deleted session id no longer resolves). -/
theorem storeLookup_erase (store : Store) (sid : String) :
    storeLookup (storeErase store sid) sid = none := by
  induction store with
  | nil => rfl
  | cons f rest ih =>
    by_cases hf : f.1 = sid
    · simpa [storeErase, hf] using ih
    · simp [storeErase, storeLookup, hf, ih]

/-- Auxiliary: erasure never invents entries. -/
theorem mem_storeErase {e : String × Session × Nat} {store : Store} {sid : String}
    (h : e ∈ storeErase store sid) : e ∈ store := by
  induction store with
  | nil => exact absurd h (by simp [storeErase])
  | cons f rest ih =>
    by_cases hf : f.1 = sid
    · rw [storeErase, if_pos hf] at h
      exact List.mem_cons_of_mem _ (ih h)
    · rw [storeErase, if_neg hf] at h
      rcases List.mem_cons.mp h with h | h
      · exact h ▸ List.mem_cons_self _ _
      · exact List.mem_cons_of_mem _ (ih h)

/-- Auxiliary: an entry of the store after `finishHandle` was already present
or was inserted while the response status was 300. -/
theorem finishHandle_mem_cases (store : Store) (sess : Session) (outcome : Option Nat)
    (e : String × Session × Nat)
    (he : e ∈ (finishHandle store sess outcome).2) :
    e ∈ store ∨ (outcome = some 300 ∧ e.2.2 = 300) := by
  cases outcome with
  | none => exact Or.inl (by simpa [finishHandle] using he)
  | some st =>
    by_cases h3 : st = 300
    · subst h3
      rw [finishHandle] at he
      rw [if_pos rfl] at he
      rcases List.mem_cons.mp he with h | h
      · exact Or.inr ⟨rfl, by rw [h]⟩
      · exact Or.inl (mem_storeErase h)
    · rw [finishHandle, if_neg h3] at he
      exact Or.inl he

/-- Auxiliary: an entry of the store after `handle` was already present or
was inserted while the response status was 300 (lines 327-330 are the only
write to `sessionsWaitingForSelection`). -/
theorem handle_mem_cases (store : Store) (cto : Bool) (data : Option ReqData)
    (fresh : Session) (outcome : Option Nat) (e : String × Session × Nat)
    (he : e ∈ (handle store cto data fresh outcome).2) :
    e ∈ store ∨ (outcome = some 300 ∧ e.2.2 = 300) := by
  by_cases hcto : cto = false
  · simp [handle, hcto] at he
    exact Or.inl he
  · cases data with
    | none => simp [handle, hcto] at he; exact Or.inl he
    | some d =>
      cases d with
      | strData s =>
        by_cases hs : s = ""
        · simp [handle, hcto, hs] at he; exact Or.inl he
        · by_cases hu : urlPrefixOk s = false
          · simp [handle, hcto, hs, hu] at he; exact Or.inl he
          · have he' : e ∈ (finishHandle store fresh outcome).2 := by
              simpa [handle, hcto, hs, hu] using he
            exact finishHandle_mem_cases store fresh outcome e he'
      | objData sf =>
        cases hsf : sessionFieldValue sf with
        | none => simp [handle, hcto, hsf] at he; exact Or.inl he
        | some sid =>
          cases hlk : storeRead store sid with
          | undefinedVal => simp [handle, hcto, hsf, hlk] at he; exact Or.inl he
          | inherited => simp [handle, hcto, hsf, hlk] at he; exact Or.inl he
          | ownSession sess =>
            have he' : e ∈ (finishHandle (storeErase store sid)
                { sess with data := ReqData.objData sf } outcome).2 := by
              simpa [handle, hcto, hsf, hlk] using he
            rcases finishHandle_mem_cases _ _ _ _ he' with h | h
            · exact Or.inl (mem_storeErase h)
            · exact Or.inr h

/-- Claim C1 (code bug): the claim says every follow-up with a never-issued
id fails with 400 "Session not found" and leaves the store unchanged, but
the store is a plain object literal, so the bracket read at line 308
consults the prototype chain: a never-issued id naming an
`Object.prototype` member — `constructor`, `toString`, `__proto__`, … —
returns that truthy inherited value, the `if (!session)` guard at line 309
is not taken, and the call at line 325 throws
`TypeError: session.handleURL is not a function`, an uncaught 500 server
fault (the store's own entries are still unchanged: the line-312 delete
removes nothing).  Any other never-issued id gets the claimed 400, and a
stored id resumes exactly once — the second follow-up then gets the 400 —
as the last three conjuncts document for comparison. -/
theorem claim_c1_proto_id_bypasses_session_not_found :
    handle [] true (some (.objData (some "constructor"))) ⟨"f", 0, .strData ""⟩ (some 200)
      = (.typeError, [])
    ∧ handle [] true (some (.objData (some "toString"))) ⟨"f", 0, .strData ""⟩ (some 200)
      = (.typeError, [])
    ∧ handle [] true (some (.objData (some "__proto__"))) ⟨"f", 0, .strData ""⟩ (some 200)
      = (.typeError, [])
    ∧ handle [] true (some (.objData (some "zz"))) ⟨"f", 0, .strData ""⟩ (some 200)
      = (.clientError 400 "Session not found", [])
    ∧ handle [("s1", ⟨"s1", 100, .strData "http://a"⟩, 300)] true
        (some (.objData (some "s1"))) ⟨"f", 0, .strData ""⟩ (some 200)
      = (.responded 200, [])
    ∧ handle [] true (some (.objData (some "s1"))) ⟨"g", 0, .strData ""⟩ (some 200)
      = (.clientError 400 "Session not found", []) :=
  ⟨rfl, rfl, rfl, rfl, rfl, rfl⟩

/-- Claim C2: every entry of the store was written while the response status
was 300 (the annotated invariant is preserved by any `handle` call), a
request whose workflow finishes with a status other than 300 inserts
nothing, and the `gc` sweep preserves the invariant as well. -/
theorem claim_c2_store_only_status300
    (store : Store) (cto cto2 : Bool) (data data2 : Option ReqData)
    (fresh fresh2 : Session) (outcome outcome2 : Option Nat) (st c now : Nat)
    (e e2 e3 : String × Session × Nat)
    (hInv : StoreInv store)
    (he : e ∈ (handle store cto2 data2 fresh2 outcome2).2)
    (hout : outcome = some st) (hne : st ≠ 300)
    (he2 : e2 ∈ (handle store cto data fresh outcome).2)
    (he3 : e3 ∈ (gc c now store).2) :
    e.2.2 = 300 ∧ e2 ∈ store ∧ e3.2.2 = 300 := by
  refine ⟨?_, ?_, ?_⟩
  · rcases handle_mem_cases store cto2 data2 fresh2 outcome2 e he with h | ⟨_, h⟩
    · exact hInv e h
    · exact h
  · rcases handle_mem_cases store cto data fresh outcome e2 he2 with h | ⟨h300, _⟩
    · exact h
    · rw [hout] at h300
      exact absurd (Option.some.inj h300) hne
  · apply hInv
    by_cases hc : c + 1 = 3
    · rw [gc, if_pos hc] at he3
      exact (List.mem_filter.mp he3).1
    · rwa [gc, if_neg hc] at he3

/-- Claim C2 witness: a 300 outcome inserts a 300-tagged entry, a 200
outcome inserts nothing, and the sweep keeps only store entries. -/
theorem claim_c2_witness :
    (("f", ⟨"f", 60, .strData "http://b"⟩, 300) : String × Session × Nat).2.2 = 300
    ∧ (("p", ⟨"p", 50, .strData "http://p"⟩, 300) : String × Session × Nat)
        ∈ [("p", (⟨"p", 50, .strData "http://p"⟩ : Session), 300)]
    ∧ (("p", ⟨"p", 50, .strData "http://p"⟩, 300) : String × Session × Nat).2.2 = 300 :=
  claim_c2_store_only_status300
    [("p", ⟨"p", 50, .strData "http://p"⟩, 300)] true true
    (some (.strData "http://b")) (some (.strData "http://b"))
    ⟨"f", 60, .strData "http://b"⟩ ⟨"f", 60, .strData "http://b"⟩
    (some 200) (some 300) 200 0 60
    ("f", ⟨"f", 60, .strData "http://b"⟩, 300)
    ("p", ⟨"p", 50, .strData "http://p"⟩, 300)
    ("p", ⟨"p", 50, .strData "http://p"⟩, 300)
    (by decide)
    (by
      have h : (handle [("p", ⟨"p", 50, .strData "http://p"⟩, 300)] true
          (some (.strData "http://b")) ⟨"f", 60, .strData "http://b"⟩ (some 300)).2
          = [("f", ⟨"f", 60, .strData "http://b"⟩, 300),
             ("p", ⟨"p", 50, .strData "http://p"⟩, 300)] := rfl
      rw [h]
      exact List.mem_cons_self _ _)
    rfl (by decide)
    (by
      have h : (handle [("p", ⟨"p", 50, .strData "http://p"⟩, 300)] true
          (some (.strData "http://b")) ⟨"f", 60, .strData "http://b"⟩ (some 200)).2
          = [("p", ⟨"p", 50, .strData "http://p"⟩, 300)] := rfl
      rw [h]
      exact List.mem_cons_self _ _)
    (by decide)

/-- Claim C3: the sweep pre-increments the counter; when it reaches 3 it
resets to 0, removes every (positively-started) session strictly older than
the 15-second window and keeps every session younger than it; when the
incremented counter is not 3 the counter advances and no session is
removed. -/
theorem claim_c3_sweep_threshold_and_window
    (c c2 now : Nat) (store : Store) (e1 e2 : String × Session × Nat)
    (h3 : c + 1 = 3)
    (_he1 : e1 ∈ store) (ha1 : 0 < e1.2.1.started)
    (hold : SELECT_TIMEOUT * 1000 < now - e1.2.1.started)
    (he2 : e2 ∈ store) (hyoung : now - e2.2.1.started < SELECT_TIMEOUT * 1000)
    (h4 : c2 + 1 ≠ 3) :
    (gc c now store).1 = 0
    ∧ e1 ∉ (gc c now store).2
    ∧ e2 ∈ (gc c now store).2
    ∧ gc c2 now store = (c2 + 1, store) := by
  have hex1 : expired now e1 = true := by
    unfold expired SELECT_TIMEOUT
    rw [Bool.and_eq_true, decide_eq_true_eq, decide_eq_true_eq]
    unfold SELECT_TIMEOUT at hold
    omega
  have hex2 : expired now e2 = false := by
    have hn : ¬ (e2.2.1.started + SELECT_TIMEOUT * 1000 ≤ now) := by
      unfold SELECT_TIMEOUT at hyoung ⊢
      omega
    simp [expired, hn]
  refine ⟨by rw [gc, if_pos h3], ?_, ?_, by rw [gc, if_neg h4]⟩
  · rw [gc, if_pos h3]
    intro hmem
    have := (List.mem_filter.mp hmem).2
    rw [hex1] at this
    simp at this
  · rw [gc, if_pos h3]
    exact List.mem_filter.mpr ⟨he2, by rw [hex2]; rfl⟩

/-- Claim C3 witness: with the counter at 2, a session aged 19999 ms is
swept, one aged 10000 ms survives, and with the counter at 0 nothing is
removed. -/
theorem claim_c3_witness :
    (gc 2 20000 [("o", ⟨"o", 1, .strData ""⟩, 300),
        ("y", ⟨"y", 10000, .strData ""⟩, 300)]).1 = 0
    ∧ ("o", (⟨"o", 1, .strData ""⟩ : Session), 300)
        ∉ (gc 2 20000 [("o", ⟨"o", 1, .strData ""⟩, 300),
            ("y", ⟨"y", 10000, .strData ""⟩, 300)]).2
    ∧ ("y", (⟨"y", 10000, .strData ""⟩ : Session), 300)
        ∈ (gc 2 20000 [("o", ⟨"o", 1, .strData ""⟩, 300),
            ("y", ⟨"y", 10000, .strData ""⟩, 300)]).2
    ∧ gc 0 20000 [("o", ⟨"o", 1, .strData ""⟩, 300),
          ("y", ⟨"y", 10000, .strData ""⟩, 300)]
        = (1, [("o", ⟨"o", 1, .strData ""⟩, 300), ("y", ⟨"y", 10000, .strData ""⟩, 300)]) :=
  claim_c3_sweep_threshold_and_window 2 0 20000
    [("o", ⟨"o", 1, .strData ""⟩, 300), ("y", ⟨"y", 10000, .strData ""⟩, 300)]
    ("o", ⟨"o", 1, .strData ""⟩, 300) ("y", ⟨"y", 10000, .strData ""⟩, 300)
    rfl (by decide) (by decide) (by decide) (by decide) (by decide) (by decide)

/-- Claim C4 (code bug): with an explicit array of success codes the
callback evaluates the undeclared identifier `status` instead of
`response.statusCode`, so a 404 response with `successCodes: [404]` raises
a `ReferenceError` rather than succeeding; the other two branches of the
classification behave as claimed (404 with the defaults rejects with a
Status error carrying 404, and `successCodes: false` accepts it). -/
theorem claim_c4_successCodes_reads_undeclared_status :
    requestCallback "http://x" (.codes [404]) (.completed 404 "nf") =
      Except.error (.jsError (.referenceError "status"))
    ∧ isOkB (requestCallback "http://x" (.codes [404]) (.completed 404 "nf")) = false
    ∧ requestCallback "http://x" .falseAllow (.completed 404 "nf") =
        Except.ok ⟨"nf", 404⟩
    ∧ requestCallback "http://x" .nullDefault (.completed 404 "nf") =
        Except.error (.statusError "http://x" 404 "nf") :=
  ⟨rfl, rfl, rfl, rfl⟩

/-- Claim C5: `processDocuments` runs serially and the first failure —
whether the fetch or the processor fails — aborts the remaining queue: no
request is issued for any URL after the failing one (the trace stops
there), earlier results are discarded, and the whole call fails with the
triggering error. -/
theorem claim_c5_first_failure_aborts {E D A : Type} (fetch : String → Except E D)
    (proc : D → String → Except E A) (pre post : List String) (u : String) (e : E)
    (hpre : ∀ v ∈ pre, ∃ d a, fetch v = .ok d ∧ proc d v = .ok a)
    (hu : fetch u = .error e ∨ ∃ d, fetch u = .ok d ∧ proc d u = .error e) :
    processDocumentsTrace fetch proc (pre ++ u :: post) = (pre ++ [u], .error e) := by
  induction pre with
  | nil =>
    rcases hu with hu | ⟨d, hd, hp⟩
    · simp [processDocumentsTrace, hu]
    · simp [processDocumentsTrace, hd, hp]
  | cons v vs ih =>
    obtain ⟨d, a, hd, ha⟩ := hpre v (List.mem_cons_self v vs)
    have ih' := ih (fun w hw => hpre w (List.mem_cons_of_mem v hw))
    simp [processDocumentsTrace, hd, ha, ih', Except.map]

/-- Claim C5 witness: on `["a", "b"]` with `"a"` failing, only `"a"` is
fetched and the call fails with that error. -/
theorem claim_c5_witness :
    processDocumentsTrace (fun v => if v = "a" then Except.error "boom" else Except.ok v)
      (fun d _ => Except.ok d.length) ["a", "b"] = (["a"], Except.error "boom") :=
  claim_c5_first_failure_aborts
    (fun v => if v = "a" then Except.error "boom" else Except.ok v)
    (fun d _ => Except.ok d.length) [] ["b"] "a" "boom"
    (by intro v hv; exact absurd hv (List.not_mem_nil v))
    (Or.inl rfl)

/-- Claim C6 (code bug): the callback never rejects with the
`Zotero.HTTP.TimeoutError` kind — in particular, when the transport
reports its timeout (e.g. `ETIMEDOUT`), the promise rejects with that raw
transport error forwarded unchanged, not with the module's duration-carrying
TimeoutError. -/
theorem claim_c6_timeout_rejects_generic_transport_error :
    (∀ (url : String) (sc : SuccessCodesOpt) (out : CallbackOutcome),
      isTimeoutRejection (requestCallback url sc out) = false)
    ∧ requestCallback "http://x" .nullDefault (.transportErr ⟨"ETIMEDOUT"⟩) =
        Except.error (.transport ⟨"ETIMEDOUT"⟩) := by
  constructor
  · intro url sc out
    cases out with
    | transportErr e => rfl
    | completed code body =>
      cases sc with
      | codes cs => rfl
      | falseAllow => rfl
      | nullDefault =>
        unfold requestCallback classifySuccess
        cases hd : decide (200 ≤ code ∧ code < 300) <;> simp [hd, isTimeoutRejection]
  · rfl

/-- Claim C7: a GET or HEAD request with a non-null body throws an
invalid-argument error in the synchronous pre-send phase, so no outbound
request is ever issued. -/
theorem claim_c7_get_head_body_rejected_before_network
    (method url : String) (b : JsBody) (cap : Nat)
    (h : method = "GET" ∨ method = "HEAD") :
    requestPre method url (some b) cap =
      Except.error
        ("HTTP " ++ method ++ " cannot have a request body (" ++ jsTemplateString b ++ ")")
    ∧ requestIssuesNetwork method url (some b) cap = false := by
  have hpre : requestPre method url (some b) cap =
      Except.error
        ("HTTP " ++ method ++ " cannot have a request body (" ++ jsTemplateString b ++ ")") := by
    unfold requestPre
    rw [if_pos h]
  exact ⟨hpre, by rw [requestIssuesNetwork, hpre]; rfl⟩

/-- Claim C7 witness: a GET with body `"b"` fails before any network call. -/
theorem claim_c7_witness :
    requestPre "GET" "http://x" (some (.jstr "b")) 1024 =
      Except.error "HTTP GET cannot have a request body (b)"
    ∧ requestIssuesNetwork "GET" "http://x" (some (.jstr "b")) 1024 = false :=
  claim_c7_get_head_body_rejected_before_network "GET" "http://x" (.jstr "b") 1024
    (Or.inl rfl)

/-- Claim C8: the line passed to `Zotero.debug` before sending never
contains a secret that occurs only in the request body: the logged line is
exactly `HTTP <method> <url>` (the body contribution is the empty string
for every body), so any secret absent from that method/URL part is absent
from the log, whatever the debug option is (it only guards the response
log). -/
theorem claim_c8_presend_log_never_contains_secret
    (method url : String) (b : JsBody) (cap : Nat) (secret line : String)
    (sent : Option String)
    (hm : ¬ (method = "GET" ∨ method = "HEAD"))
    (_hsec : strContains (serializeBody b) secret = true)
    (hu : strContains ("HTTP " ++ method ++ " " ++ url) secret = false)
    (hres : requestPre method url (some b) cap = Except.ok (line, sent)) :
    strContains line secret = false := by
  by_cases ht : bodyTruthy b = true
  · simp [requestPre, hm, ht, jsLogBody_eq_empty, redactPasswordJson_empty,
      redactPasswordForm_empty, String.append_empty] at hres
    obtain ⟨h1, h2⟩ := hres
    subst h1
    exact hu
  · rw [Bool.not_eq_true] at ht
    simp [requestPre, hm, ht] at hres
    obtain ⟨h1, h2⟩ := hres
    subst h1
    exact hu

/-- Claim C8 witness: a POST body carrying `password":"secret"` produces the
log line `HTTP POST http://x`, which does not contain `secret`. -/
theorem claim_c8_witness :
    strContains "HTTP POST http://x" "secret" = false :=
  claim_c8_presend_log_never_contains_secret "POST" "http://x"
    (.jstr "login=me&password\":\"secret\"") 1024 "secret" "HTTP POST http://x"
    (some "login=me&password\":\"secret\"")
    (by decide) (by decide) (by decide) rfl

/-- Claim C9 (code bug): the pre-send log line for a POST with a string
body contains no part of the body at all — the missing parentheses at
lines 101-102 make `logBody` the empty string — where the claim expects
the first `min(length, logBodyLength)` characters (here `: hello`). -/
theorem claim_c9_post_body_absent_from_log :
    requestPre "POST" "http://x" (some (.jstr "hello")) 1024 =
      Except.ok ("HTTP POST http://x", some "hello")
    ∧ strContains "HTTP POST http://x" "hello" = false
    ∧ (∀ body : String, ∀ cap : Nat, jsLogBody body cap = "") :=
  ⟨rfl, by decide, jsLogBody_eq_empty⟩

/-- Claim C10: passing a single URL string to `processDocuments` is the
same as passing the one-element array, and on success the result is the
one-element array of the processor's result for that URL. -/
theorem claim_c10_single_url_equals_singleton_list {E D A : Type}
    (fetch : String → Except E D) (proc : D → String → Except E A)
    (u : String) (d : D) (a : A)
    (hd : fetch u = .ok d) (ha : proc d u = .ok a) :
    processDocuments fetch proc (.single u) = processDocuments fetch proc (.list [u])
    ∧ processDocuments fetch proc (.single u) = ([u], .ok [a]) := by
  refine ⟨rfl, ?_⟩
  simp [processDocuments, normalizeUrls, processDocumentsTrace, hd, ha, Except.map]

/-- Claim C10 witness: a single URL behaves as its singleton list. -/
theorem claim_c10_witness :
    processDocuments (fun _ => (Except.ok "doc" : Except String String))
        (fun d _ => Except.ok d.length)
        (.single "http://a")
      = processDocuments (fun _ => (Except.ok "doc" : Except String String))
        (fun d _ => Except.ok d.length)
        (.list ["http://a"])
    ∧ processDocuments (fun _ => (Except.ok "doc" : Except String String))
        (fun d _ => Except.ok d.length)
        (.single "http://a")
      = (["http://a"], Except.ok [3]) :=
  claim_c10_single_url_equals_singleton_list
    (fun _ => (Except.ok "doc" : Except String String)) (fun d _ => Except.ok d.length)
    "http://a" "doc" 3 rfl rfl
